import Mathlib

/-!
Verification of the Vanguard: Saga of Heroes asset-extractor decoders.

This file gives a shallow embedding, in Lean 4, of the byte-level decoders of
the repository and proves (or refutes) the frozen claims about them:

* `src/ue2/reader.py` — `read_compact_index_at` (UE2 compact-index decoding);
* `src/ue2/package.py` — `_get_class_name` (class-name resolution);
* `src/ue2/properties.py` — `validate_property_type_size`, `parse_properties`;
* `src/scripts/lib/staticmesh_construct.py` — `find_none_terminator`,
  `parse_staticmesh` (the Vanguard StaticMesh decoder with coverage metrics).

Modelling conventions:
* a byte buffer is a `List Nat` whose elements are byte values (`< 256` for
  every concrete input used here);
* Python exceptions (`IndexError`, `ValueError`, `struct.error`, construct's
  `StreamError`) are the error side of `Except PyErr`;
* Python's negative-index slicing is modelled exactly (`pySlice`);
* IEEE-754 float decoding never influences control flow in the translated
  code; float-valued results are therefore carried as their raw little-endian
  bytes (opaque), while every integer-valued and control-flow computation is
  modelled exactly.
-/

/-- Python exception kinds raised by the translated code. -/
inductive PyErr where
  | indexError : PyErr
  | valueError : String → PyErr
  | structError : PyErr
  | streamError : PyErr
deriving DecidableEq, Repr

/-- Normalise one Python slice endpoint: a negative index counts from the end
(clamped at 0), exactly as in CPython. -/
def pyIx (len : Nat) (i : Int) : Nat :=
  if i < 0 then ((len : Int) + i).toNat else i.toNat

/-- Python slice `data[a:b]` (step 1), including negative-index semantics. -/
def pySlice (data : List Nat) (a b : Int) : List Nat :=
  (data.take (pyIx data.length b)).drop (pyIx data.length a)

/-- Python slice `data[a:]`. -/
def pySliceFrom (data : List Nat) (a : Int) : List Nat :=
  data.drop (pyIx data.length a)

/-- Two's-complement reinterpretation of a 32-bit unsigned value,
`struct.unpack` with format `<i` versus `<I`. -/
def toSigned32 (n : Nat) : Int :=
  if n < 2 ^ 31 then (n : Int) else (n : Int) - 2 ^ 32

/-- Little-endian `struct.unpack("<I", data[pos:pos+4])`: errors unless the
slice holds exactly four bytes. -/
def unpackU32 (data : List Nat) (pos : Int) : Except PyErr Nat :=
  match pySlice data pos (pos + 4) with
  | [b0, b1, b2, b3] => .ok (b0 + 256 * b1 + 65536 * b2 + 16777216 * b3)
  | _ => .error .structError

/-- Little-endian `struct.unpack("<i", data[pos:pos+4])`. -/
def unpackI32 (data : List Nat) (pos : Int) : Except PyErr Int :=
  match pySlice data pos (pos + 4) with
  | [b0, b1, b2, b3] => .ok (toSigned32 (b0 + 256 * b1 + 65536 * b2 + 16777216 * b3))
  | _ => .error .structError

/-- Little-endian `struct.unpack("<H", data[pos:pos+2])`. -/
def unpackU16 (data : List Nat) (pos : Int) : Except PyErr Nat :=
  match pySlice data pos (pos + 2) with
  | [b0, b1] => .ok (b0 + 256 * b1)
  | _ => .error .structError

/-- UE2 compact index decoder, `read_compact_index_at` of `src/ue2/reader.py`
(lines 156-204): byte 0 carries the sign in bit 7, a continuation flag in
bit 6 and value bits 0-5; bytes 1-3 carry 7 value bits each plus a
continuation flag in bit 7; byte 4, if reached, contributes value bits 27-34
using all 8 bits.  Out-of-range reads raise `IndexError`. -/
def read_compact_index_at (data : List Nat) (offset : Nat) :
    Except PyErr (Int × Nat) :=
  if offset ≥ data.length then .error .indexError else
  let b0 := data.getD offset 0
  let negative := b0 &&& 0x80
  let v0 := b0 &&& 0x3F
  let pos0 := offset + 1
  let sgn : Nat → Int := fun v => if negative ≠ 0 then -(v : Int) else (v : Int)
  if b0 &&& 0x40 = 0 then .ok (sgn v0, pos0) else
  if pos0 ≥ data.length then .error .indexError else
  let b1 := data.getD pos0 0
  let v1 := v0 ||| ((b1 &&& 0x7F) <<< 6)
  let pos1 := pos0 + 1
  if b1 &&& 0x80 = 0 then .ok (sgn v1, pos1) else
  if pos1 ≥ data.length then .error .indexError else
  let b2 := data.getD pos1 0
  let v2 := v1 ||| ((b2 &&& 0x7F) <<< 13)
  let pos2 := pos1 + 1
  if b2 &&& 0x80 = 0 then .ok (sgn v2, pos2) else
  if pos2 ≥ data.length then .error .indexError else
  let b3 := data.getD pos2 0
  let v3 := v2 ||| ((b3 &&& 0x7F) <<< 20)
  let pos3 := pos2 + 1
  if b3 &&& 0x80 = 0 then .ok (sgn v3, pos3) else
  if pos3 ≥ data.length then .error .indexError else
  let b4 := data.getD pos3 0
  let v4 := v3 ||| (b4 <<< 27)
  .ok (sgn v4, pos3 + 1)

/-- Modelled from the spec: the compact-index ENCODING described by the spec
(the repository only ships the decoder).  Byte 0 holds the sign in bit 7, a
continuation flag in bit 6 and value bits 0-5; bytes 1-3 hold the next three
7-bit groups with bit 7 as continuation; byte 4 holds value bits 27-34 using
all 8 bits.  The shortest encoding is produced. -/
def encode_compact_index (v : Int) : List Nat :=
  let sign : Nat := if v < 0 then 128 else 0
  let n : Nat := v.natAbs
  if n < 2 ^ 6 then
    [sign + n]
  else if n < 2 ^ 13 then
    [sign + 64 + n % 64, n / 2 ^ 6 % 128]
  else if n < 2 ^ 20 then
    [sign + 64 + n % 64, 128 + n / 2 ^ 6 % 128, n / 2 ^ 13 % 128]
  else if n < 2 ^ 27 then
    [sign + 64 + n % 64, 128 + n / 2 ^ 6 % 128, 128 + n / 2 ^ 13 % 128,
      n / 2 ^ 20 % 128]
  else
    [sign + 64 + n % 64, 128 + n / 2 ^ 6 % 128, 128 + n / 2 ^ 13 % 128,
      128 + n / 2 ^ 20 % 128, n / 2 ^ 27]

/-- Disjoint-or is addition: oring a value below `2 ^ k` with a left-shifted
value adds them. -/
theorem lor_shiftLeft_eq_add (a b k : Nat) (h : a < 2 ^ k) :
    a ||| (b <<< k) = a + b * 2 ^ k := by
  rw [Nat.shiftLeft_eq, Nat.lor_comm, mul_comm b (2 ^ k),
    ← Nat.mul_add_lt_is_or h]
  omega

/-- Mask arithmetic for a first compact-index byte assembled as
sign-bit + continuation-bit + 6 value bits. -/
theorem byte0_masks (s c m : Nat) (hs : s = 0 ∨ s = 128) (hc : c = 0 ∨ c = 64)
    (hm : m < 64) :
    (s + c + m) &&& 128 = s ∧ (s + c + m) &&& 64 = c ∧ (s + c + m) &&& 63 = m := by
  rcases hs with rfl | rfl <;> rcases hc with rfl | rfl <;>
    interval_cases m <;> decide

/-- Mask arithmetic for a continuation byte assembled as
continuation-bit + 7 value bits. -/
theorem byte7_masks (t d : Nat) (ht : t = 0 ∨ t = 128) (hd : d < 128) :
    (t + d) &&& 128 = t ∧ (t + d) &&& 127 = d := by
  rcases ht with rfl | rfl <;> interval_cases d <;> decide

/-- Evaluation of the compact-index decoder on a 1-byte encoding. -/
theorem rci_stop1 (b0 : Nat) (rest : List Nat) (h : b0 &&& 64 = 0) :
    read_compact_index_at (b0 :: rest) 0 =
      .ok (if b0 &&& 128 ≠ 0 then -((b0 &&& 63 : Nat) : Int) else ((b0 &&& 63 : Nat) : Int), 1) := by
  simp [read_compact_index_at, h]

/-- Evaluation of the compact-index decoder on a 2-byte encoding. -/
theorem rci_stop2 (b0 b1 : Nat) (rest : List Nat) (h0 : b0 &&& 64 ≠ 0)
    (h1 : b1 &&& 128 = 0) :
    read_compact_index_at (b0 :: b1 :: rest) 0 =
      .ok (if b0 &&& 128 ≠ 0 then
             -(((b0 &&& 63) ||| ((b1 &&& 127) <<< 6) : Nat) : Int)
           else (((b0 &&& 63) ||| ((b1 &&& 127) <<< 6) : Nat) : Int), 2) := by
  simp [read_compact_index_at, h0, h1]

/-- Evaluation of the compact-index decoder on a 3-byte encoding. -/
theorem rci_stop3 (b0 b1 b2 : Nat) (rest : List Nat) (h0 : b0 &&& 64 ≠ 0)
    (h1 : b1 &&& 128 ≠ 0) (h2 : b2 &&& 128 = 0) :
    read_compact_index_at (b0 :: b1 :: b2 :: rest) 0 =
      .ok (if b0 &&& 128 ≠ 0 then
             -((((b0 &&& 63) ||| ((b1 &&& 127) <<< 6)) ||| ((b2 &&& 127) <<< 13) : Nat) : Int)
           else ((((b0 &&& 63) ||| ((b1 &&& 127) <<< 6)) ||| ((b2 &&& 127) <<< 13) : Nat) : Int), 3) := by
  simp [read_compact_index_at, h0, h1, h2]

/-- Evaluation of the compact-index decoder on a 4-byte encoding. -/
theorem rci_stop4 (b0 b1 b2 b3 : Nat) (rest : List Nat) (h0 : b0 &&& 64 ≠ 0)
    (h1 : b1 &&& 128 ≠ 0) (h2 : b2 &&& 128 ≠ 0) (h3 : b3 &&& 128 = 0) :
    read_compact_index_at (b0 :: b1 :: b2 :: b3 :: rest) 0 =
      .ok (if b0 &&& 128 ≠ 0 then
             -(((((b0 &&& 63) ||| ((b1 &&& 127) <<< 6)) ||| ((b2 &&& 127) <<< 13)) ||| ((b3 &&& 127) <<< 20) : Nat) : Int)
           else (((((b0 &&& 63) ||| ((b1 &&& 127) <<< 6)) ||| ((b2 &&& 127) <<< 13)) ||| ((b3 &&& 127) <<< 20) : Nat) : Int), 4) := by
  simp [read_compact_index_at, h0, h1, h2, h3]

/-- Evaluation of the compact-index decoder on a 5-byte encoding. -/
theorem rci_stop5 (b0 b1 b2 b3 b4 : Nat) (rest : List Nat) (h0 : b0 &&& 64 ≠ 0)
    (h1 : b1 &&& 128 ≠ 0) (h2 : b2 &&& 128 ≠ 0) (h3 : b3 &&& 128 ≠ 0) :
    read_compact_index_at (b0 :: b1 :: b2 :: b3 :: b4 :: rest) 0 =
      .ok (if b0 &&& 128 ≠ 0 then
             -((((((b0 &&& 63) ||| ((b1 &&& 127) <<< 6)) ||| ((b2 &&& 127) <<< 13)) ||| ((b3 &&& 127) <<< 20)) ||| (b4 <<< 27) : Nat) : Int)
           else ((((((b0 &&& 63) ||| ((b1 &&& 127) <<< 6)) ||| ((b2 &&& 127) <<< 13)) ||| ((b3 &&& 127) <<< 20)) ||| (b4 <<< 27) : Nat) : Int), 5) := by
  simp [read_compact_index_at, h0, h1, h2, h3]

/-- Round-trip: decoding the spec-described compact-index encoding of any
integer in the representable range recovers the integer, together with the
number of bytes consumed. -/
theorem decode_encode_compact_index (v : Int) (hv : v.natAbs ≤ 2 ^ 34) :
    read_compact_index_at (encode_compact_index v) 0 =
      .ok (v, (encode_compact_index v).length) := by
  have p6 : (2 : Nat) ^ 6 = 64 := by norm_num
  have p13 : (2 : Nat) ^ 13 = 8192 := by norm_num
  have p20 : (2 : Nat) ^ 20 = 1048576 := by norm_num
  have p27 : (2 : Nat) ^ 27 = 134217728 := by norm_num
  have p34 : (2 : Nat) ^ 34 = 17179869184 := by norm_num
  have hs : (if v < 0 then (128 : Nat) else 0) = 0 ∨
      (if v < 0 then (128 : Nat) else 0) = 128 := by
    split <;> simp
  have hsign : ∀ m : Nat, m = v.natAbs →
      (if (if v < 0 then (128 : Nat) else 0) ≠ 0 then -(m : Int) else (m : Int)) = v := by
    intro m hm
    by_cases h : v < 0 <;> simp [h] <;> omega
  rw [p34] at hv
  simp only [encode_compact_index]
  rcases lt_or_ge v.natAbs (2 ^ 6) with h1 | h1
  · rw [if_pos h1]
    obtain ⟨m128, m64, m63⟩ :=
      byte0_masks (if v < 0 then (128 : Nat) else 0) 0 v.natAbs hs (Or.inl rfl)
        (by rw [p6] at h1; omega)
    rw [Nat.add_zero] at m128 m64 m63
    rw [rci_stop1 _ _ m64, m128, m63, hsign v.natAbs rfl]
    simp
  · rw [if_neg (not_lt.2 h1)]
    rw [p6] at h1
    rcases lt_or_ge v.natAbs (2 ^ 13) with h2 | h2
    · rw [if_pos h2]
      rw [p13] at h2
      obtain ⟨m128, m64, m63⟩ :=
        byte0_masks (if v < 0 then (128 : Nat) else 0) 64 (v.natAbs % 64) hs
          (Or.inr rfl) (by omega)
      obtain ⟨n128, n127⟩ := byte7_masks 0 (v.natAbs / 2 ^ 6 % 128) (Or.inl rfl)
        (by omega)
      rw [Nat.zero_add] at n128 n127
      have hval : (v.natAbs % 64) ||| ((v.natAbs / 2 ^ 6 % 128) <<< 6) = v.natAbs := by
        rw [p6, lor_shiftLeft_eq_add _ _ 6 (by rw [p6]; omega), p6]
        omega
      rw [rci_stop2 _ _ _ (by rw [m64]; omega) n128, m128, m63, n127,
        hsign _ hval]
      simp
    · rw [if_neg (not_lt.2 h2)]
      rw [p13] at h2
      rcases lt_or_ge v.natAbs (2 ^ 20) with h3 | h3
      · rw [if_pos h3]
        rw [p20] at h3
        obtain ⟨m128, m64, m63⟩ :=
          byte0_masks (if v < 0 then (128 : Nat) else 0) 64 (v.natAbs % 64) hs
            (Or.inr rfl) (by omega)
        obtain ⟨n128a, n127a⟩ := byte7_masks 128 (v.natAbs / 2 ^ 6 % 128)
          (Or.inr rfl) (by omega)
        obtain ⟨n128b, n127b⟩ := byte7_masks 0 (v.natAbs / 2 ^ 13 % 128)
          (Or.inl rfl) (by omega)
        rw [Nat.zero_add] at n128b n127b
        have hval : ((v.natAbs % 64) ||| ((v.natAbs / 2 ^ 6 % 128) <<< 6)) |||
            ((v.natAbs / 2 ^ 13 % 128) <<< 13) = v.natAbs := by
          rw [p6, p13, lor_shiftLeft_eq_add _ _ 6 (by rw [p6]; omega), p6,
            lor_shiftLeft_eq_add _ _ 13 (by rw [p13]; omega), p13]
          omega
        rw [rci_stop3 _ _ _ _ (by rw [m64]; omega) (by rw [n128a]; omega) n128b,
          m128, m63, n127a, n127b, hsign _ hval]
        simp
      · rw [if_neg (not_lt.2 h3)]
        rw [p20] at h3
        rcases lt_or_ge v.natAbs (2 ^ 27) with h4 | h4
        · rw [if_pos h4]
          rw [p27] at h4
          obtain ⟨m128, m64, m63⟩ :=
            byte0_masks (if v < 0 then (128 : Nat) else 0) 64 (v.natAbs % 64) hs
              (Or.inr rfl) (by omega)
          obtain ⟨n128a, n127a⟩ := byte7_masks 128 (v.natAbs / 2 ^ 6 % 128)
            (Or.inr rfl) (by omega)
          obtain ⟨n128b, n127b⟩ := byte7_masks 128 (v.natAbs / 2 ^ 13 % 128)
            (Or.inr rfl) (by omega)
          obtain ⟨n128c, n127c⟩ := byte7_masks 0 (v.natAbs / 2 ^ 20 % 128)
            (Or.inl rfl) (by omega)
          rw [Nat.zero_add] at n128c n127c
          have hval : (((v.natAbs % 64) ||| ((v.natAbs / 2 ^ 6 % 128) <<< 6)) |||
              ((v.natAbs / 2 ^ 13 % 128) <<< 13)) |||
              ((v.natAbs / 2 ^ 20 % 128) <<< 20) = v.natAbs := by
            rw [p6, p13, p20, lor_shiftLeft_eq_add _ _ 6 (by rw [p6]; omega), p6,
              lor_shiftLeft_eq_add _ _ 13 (by rw [p13]; omega), p13,
              lor_shiftLeft_eq_add _ _ 20 (by rw [p20]; omega), p20]
            omega
          rw [rci_stop4 _ _ _ _ _ (by rw [m64]; omega) (by rw [n128a]; omega)
            (by rw [n128b]; omega) n128c, m128, m63, n127a, n127b, n127c,
            hsign _ hval]
          simp
        · rw [if_neg (not_lt.2 h4)]
          rw [p27] at h4
          obtain ⟨m128, m64, m63⟩ :=
            byte0_masks (if v < 0 then (128 : Nat) else 0) 64 (v.natAbs % 64) hs
              (Or.inr rfl) (by omega)
          obtain ⟨n128a, n127a⟩ := byte7_masks 128 (v.natAbs / 2 ^ 6 % 128)
            (Or.inr rfl) (by omega)
          obtain ⟨n128b, n127b⟩ := byte7_masks 128 (v.natAbs / 2 ^ 13 % 128)
            (Or.inr rfl) (by omega)
          obtain ⟨n128c, n127c⟩ := byte7_masks 128 (v.natAbs / 2 ^ 20 % 128)
            (Or.inr rfl) (by omega)
          have hval : ((((v.natAbs % 64) ||| ((v.natAbs / 2 ^ 6 % 128) <<< 6)) |||
              ((v.natAbs / 2 ^ 13 % 128) <<< 13)) |||
              ((v.natAbs / 2 ^ 20 % 128) <<< 20)) |||
              ((v.natAbs / 2 ^ 27) <<< 27) = v.natAbs := by
            rw [p6, p13, p20, p27, lor_shiftLeft_eq_add _ _ 6 (by rw [p6]; omega),
              p6, lor_shiftLeft_eq_add _ _ 13 (by rw [p13]; omega), p13,
              lor_shiftLeft_eq_add _ _ 20 (by rw [p20]; omega), p20,
              lor_shiftLeft_eq_add _ _ 27 (by rw [p27]; omega), p27]
            omega
          rw [rci_stop5 _ _ _ _ _ _ (by rw [m64]; omega) (by rw [n128a]; omega)
            (by rw [n128b]; omega) (by rw [n128c]; omega), m128, m63, n127a,
            n127b, n127c, hsign _ hval]
          simp

/-- C2: for every integer v with |v| ≤ 2^34, decoding the compact-index
encoding of v (byte 0: bit 7 sign, bit 6 continuation, bits 0-5 value;
bytes 1-3: 7 value bits each with bit 7 as continuation; byte 4: all 8 bits
contributing value bits 27-34; result negated when the sign bit is set) with
`read_compact_index_at` yields v; in particular decode([0x05]) = 5,
decode([0x85]) = -5, and decode([0x64, 0x01]) = 100, and those three inputs
are exactly the encodings of 5, -5 and 100. -/
theorem claim_C2_compact_index_roundtrip :
    (∀ v : Int, v.natAbs ≤ 2 ^ 34 →
      read_compact_index_at (encode_compact_index v) 0 =
        .ok (v, (encode_compact_index v).length)) ∧
    read_compact_index_at [0x05] 0 = .ok (5, 1) ∧
    read_compact_index_at [0x85] 0 = .ok (-5, 1) ∧
    read_compact_index_at [0x64, 0x01] 0 = .ok (100, 2) ∧
    encode_compact_index 5 = [0x05] ∧
    encode_compact_index (-5) = [0x85] ∧
    encode_compact_index 100 = [0x64, 0x01] :=
  ⟨decode_encode_compact_index, rfl, rfl, rfl, by decide, by decide, by decide⟩

/-- Witness for C2: the round-trip conjunct applied at v = 100. -/
theorem claim_C2_witness :
    (100 : Int).natAbs ≤ 2 ^ 34 ∧
    read_compact_index_at (encode_compact_index 100) 0 =
      .ok (100, (encode_compact_index 100).length) :=
  ⟨by decide, claim_C2_compact_index_roundtrip.1 100 (by decide)⟩

/-- Entry of the import table of a UE2 package, `UE2Package._parse_imports`
of `src/ue2/package.py`. -/
structure UImport where
  index : Int
  class_package : String
  class_name : String
  package : Int
  object_name : String
deriving DecidableEq, Repr, Inhabited

/-- Entry of the export table of a UE2 package, `UE2Package._parse_exports`
of `src/ue2/package.py`. -/
structure UExport where
  index : Int
  class_index : Int
  class_name : String
  super_index : Int
  package : Int
  object_name : String
  object_flags : Int
  serial_size : Int
  serial_offset : Int
deriving DecidableEq, Repr, Inhabited

/-- Class-name resolution, `UE2Package._get_class_name` of
`src/ue2/package.py` (lines 137-149): a negative index refers to the import
table, a positive one to the export table, and every other case — index 0 as
well as out-of-range indices — falls through to the literal "Class". -/
def get_class_name (imports : List UImport) (exports : List UExport)
    (class_index : Int) : String :=
  if class_index < 0 then
    let idx : Int := -class_index - 1
    if 0 ≤ idx ∧ idx.toNat < imports.length then
      (imports.getD idx.toNat default).object_name
    else "Class"
  else if class_index > 0 then
    let idx : Int := class_index - 1
    if 0 ≤ idx ∧ idx.toNat < exports.length then
      (exports.getD idx.toNat default).object_name
    else "Class"
  else "Class"

/-- Concrete import-table entry used by the C6 theorems. -/
def impTexture : UImport := ⟨-1, "Core", "Class", 0, "Texture"⟩

/-- Concrete export-table entry used by the C6 theorems. -/
def expRock : UExport := ⟨1, -1, "Texture", 0, 0, "Rock01", 0, 0, 0⟩

/-- C6 counterexample: an out-of-range (unresolved) class_index resolves to
the literal "Class", not to the empty string as the claim states.  Here
the import table has a single entry but class_index -5 asks for entry 4. -/
theorem claim_C6_counterexample :
    get_class_name [impTexture] [] (-5) = "Class" ∧
    ("Class" : String) ≠ "" := by
  constructor
  · rfl
  · decide

/-- C6 (amended): a negative class_index with an in-range target resolves to
the object name of imports[-class_index - 1]; a positive class_index with an
in-range target resolves to the object name of exports[class_index - 1];
class_index 0 resolves to the literal "Class"; and an unresolved
(out-of-range) class_index also resolves to the literal "Class" rather than
failing the parse. -/
theorem claim_C6_class_name_resolution (imports : List UImport)
    (exports : List UExport) (ci : Int) :
    (ci < 0 → (-ci - 1).toNat < imports.length →
      get_class_name imports exports ci =
        (imports.getD (-ci - 1).toNat default).object_name) ∧
    (0 < ci → (ci - 1).toNat < exports.length →
      get_class_name imports exports ci =
        (exports.getD (ci - 1).toNat default).object_name) ∧
    (ci = 0 → get_class_name imports exports ci = "Class") ∧
    (ci < 0 → imports.length ≤ (-ci - 1).toNat →
      get_class_name imports exports ci = "Class") ∧
    (0 < ci → exports.length ≤ (ci - 1).toNat →
      get_class_name imports exports ci = "Class") := by
  refine ⟨?_, ?_, ?_, ?_, ?_⟩
  · intro h1 h2
    simp only [get_class_name]
    rw [if_pos h1, if_pos ⟨by omega, h2⟩]
  · intro h1 h2
    simp only [get_class_name]
    rw [if_neg (by omega), if_pos h1, if_pos ⟨by omega, h2⟩]
  · intro h1
    simp only [get_class_name]
    rw [if_neg (by omega), if_neg (by omega)]
  · intro h1 h2
    simp only [get_class_name]
    rw [if_pos h1, if_neg (by omega)]
  · intro h1 h2
    simp only [get_class_name]
    rw [if_neg (by omega), if_pos h1, if_neg (by omega)]

/-- Witness for C6: the amended resolution rules applied to a concrete
one-entry import table and a concrete one-entry export table. -/
theorem claim_C6_witness :
    get_class_name [impTexture] [expRock] (-1) = "Texture" := by
  have h := (claim_C6_class_name_resolution [impTexture] [expRock] (-1)).1
    (by decide) (by decide)
  simpa [impTexture] using h

/-- Property type names, `PROP_TYPES` of `src/ue2/properties.py`. -/
def PROP_TYPES (t : Nat) : String :=
  match t with
  | 0 => "None" | 1 => "Byte" | 2 => "Int" | 3 => "Bool" | 4 => "Float"
  | 5 => "Object" | 6 => "Name" | 7 => "String" | 8 => "Class" | 9 => "Array"
  | 10 => "Struct" | 11 => "Vector" | 12 => "Rotator" | 13 => "Str"
  | 14 => "Map" | 15 => "FixedArray"
  | _ => "Unknown(" ++ toString t ++ ")"

/-- Expected exact sizes for fixed-size property types, `EXPECTED_SIZES`. -/
def EXPECTED_SIZES (t : Nat) : Option (List Nat) :=
  match t with
  | 1 => some [1] | 2 => some [4] | 3 => some [0] | 4 => some [4]
  | 11 => some [12] | 12 => some [12]
  | _ => none

/-- Minimum sizes for variable-size property types, `MIN_SIZES`. -/
def MIN_SIZES (t : Nat) : Option Nat :=
  match t with
  | 7 => some 2 | 9 => some 4 | 10 => some 4 | 13 => some 2
  | _ => none

/-- Maximum sizes for reference property types, `MAX_SIZES`. -/
def MAX_SIZES (t : Nat) : Option Nat :=
  match t with
  | 5 => some 5 | 6 => some 5 | 8 => some 5
  | _ => none

/-- Types rejected outright, `INVALID_TYPES` (Map, FixedArray). -/
def INVALID_TYPES : List Nat := [14, 15]

/-- Struct names that indicate a parser sync issue, `INVALID_STRUCT_NAMES`. -/
def INVALID_STRUCT_NAMES : List String :=
  ["InternalTime", "LODSet", "StartSpinRange", "StartLocationRange",
   "LifetimeRange", "StartVelocityRange", "CoordinateSystem", "bLockLocation",
   "UClamp", "VClamp", "pBuildingTileLayerData", "PrefabPackageName"]

/-- Property names that should never be String/Str type,
`NON_STRING_PROP_NAMES`. -/
def NON_STRING_PROP_NAMES : List String :=
  ["Vector", "Region", "StartSizeRange", "InternalTime", "Zone",
   "PointRegion", "UBits", "VBits", "Level", "Tag", "bLightChanged",
   "WaterVolumeType", "VelocityVectors", "pBuildingTileLayerData", "Rotation",
   "Location", "Color", "RelativeTime", "ZoneNumber", "bNoDelete", "Scale",
   "LevelInfo", "m_CompoundObjectType", "ChunkPosition", "Layers",
   "MainScale", "Range", "PostScale", "DrawScale", "DrawScale3D", "Brush",
   "Model", "Texture", "TerrainLayer", "Rotator", "SheerAxis", "SheerRate",
   "UClamp", "WaterVolume", "iLeaf", "ColLocation", "Format", "MaxParticles",
   "RangeVector", "USize", "VSize", "VClamp", "RelativeVelocity",
   "LocationPriority", "bSelected"]

/-- Property names that should never be Name type, `NON_NAME_PROP_NAMES`. -/
def NON_NAME_PROP_NAMES : List String :=
  ["InternalTime", "Vector", "VBits", "UClamp", "LODSet",
   "m_CompoundObjectType", "pBuildingTileLayerData", "RangeVector",
   "SheerRate", "Summary", "CameraLocationDynamic", "FadeOutStartTime"]

/-- Type/size compatibility check, `validate_property_type_size` of
`src/ue2/properties.py` (lines 185-203). -/
def validate_property_type_size (prop_type prop_size : Nat) : Bool :=
  if prop_type ∈ INVALID_TYPES then false
  else
    match EXPECTED_SIZES prop_type with
    | some sizes => decide (prop_size ∈ sizes)
    | none =>
      if (match MIN_SIZES prop_type with
          | some m => decide (prop_size < m)
          | none => false) then false
      else if (match MAX_SIZES prop_type with
          | some m => decide (m < prop_size)
          | none => false) then false
      else true

/-- Parsed property value.  Integer-valued results are modelled exactly;
float-valued and JSON-rendered results (`Float` payloads, `Vector` floats,
`parse_array_value`, `parse_struct_value`) never influence control flow in
the source and are carried as their raw bytes. -/
inductive PropValue where
  | none : PropValue
  | byte (b : Nat) : PropValue
  | int (i : Int) : PropValue
  | bool (b : Bool) : PropValue
  | floatBits (bytes : List Nat) : PropValue
  | objRef (i : Int) : PropValue
  | name (s : String) : PropValue
  | str (bytes : List Nat) : PropValue
  | arrayOpaque (bytes : List Nat) : PropValue
  | structOpaque (structName : Option String) (bytes : List Nat) : PropValue
  | vectorBits (bytes : List Nat) : PropValue
  | rotator (pitch yaw roll : Int) : PropValue
deriving DecidableEq, Repr

/-- One decoded property record, as appended by `parse_properties`:
name, type name, declared size, array index, struct name, parsed value,
raw value bytes, and the index of the property list it came from. -/
structure PProp where
  name : String
  type_name : String
  size : Nat
  array_index : Nat
  struct_name : Option String
  value : PropValue
  value_hex : Option (List Nat)
  list_index : Nat
deriving DecidableEq, Repr

/-- Reads the property-name compact index and resolves it against the name
table (`parse_properties`, lines 790-798): `Except.error` models a raised
`IndexError`, `Option.none` models the break on an invalid name index. -/
def read_prop_name (data : List Nat) (names : List String) (offset : Nat) :
    Except PyErr (Option (String × Nat)) :=
  match read_compact_index_at data offset with
  | .error e => .error e
  | .ok (name_idx, new_offset) =>
    if name_idx < 0 ∨ (names.length : Int) ≤ name_idx then .ok Option.none
    else .ok (some (names.getD name_idx.toNat "", new_offset))

/-- Declared-size decoding by size class (`parse_properties`,
lines 833-859): classes 0-4 are fixed sizes 1/2/4/12/16; classes 5, 6, 7
read a 1-, 2- or 4-byte little-endian size field, breaking (`none`) when it
does not fit in the buffer.  The source's elif chain has no final else; the
last branch is class 7, the only remaining value of a 3-bit field. -/
def decode_size (data : List Nat) (size_type off1 : Nat) :
    Option (Nat × Nat) :=
  if size_type = 0 then some (1, off1)
  else if size_type = 1 then some (2, off1)
  else if size_type = 2 then some (4, off1)
  else if size_type = 3 then some (12, off1)
  else if size_type = 4 then some (16, off1)
  else if size_type = 5 then
    if off1 ≥ data.length then none
    else some (data.getD off1 0, off1 + 1)
  else if size_type = 6 then
    if off1 + 2 > data.length then none
    else some (data.getD off1 0 + 256 * data.getD (off1 + 1) 0, off1 + 2)
  else
    if off1 + 4 > data.length then none
    else some (data.getD off1 0 + 256 * data.getD (off1 + 1) 0 +
      65536 * data.getD (off1 + 2) 0 + 16777216 * data.getD (off1 + 3) 0,
      off1 + 4)

/-- Reads the info byte, performs the name/type sanity checks, and decodes
the declared property size (`parse_properties`, lines 814-859), returning
`(prop_type, size_type, array_flag, prop_size, next_offset)`; `none` models
any of that range's breaks. -/
def decode_info_size (data : List Nat) (prop_name : String) (offset : Nat) :
    Option (Nat × Nat × Nat × Nat × Nat) :=
  if offset ≥ data.length then none
  else
    let info := data.getD offset 0
    let off1 := offset + 1
    let prop_type := info &&& 0x0F
    let size_type := (info >>> 4) &&& 0x07
    let array_flag := (info >>> 7) &&& 0x01
    if (prop_type = 7 ∨ prop_type = 13) ∧ prop_name ∈ NON_STRING_PROP_NAMES then
      none
    else if prop_type = 6 ∧ prop_name ∈ NON_NAME_PROP_NAMES then none
    else
      match decode_size data size_type off1 with
      | some (prop_size, off2) =>
        some (prop_type, size_type, array_flag, prop_size, off2)
      | Option.none => none

/-- Last character of a string is an ASCII digit, Python `s[-1].isdigit()`
for the names appearing here. -/
def last_char_is_digit (s : String) : Bool :=
  match s.data.getLast? with
  | some ch => ch.isDigit
  | Option.none => false

/-- Reads and validates the struct name for Struct-typed properties
(`parse_properties`, lines 869-879).  `Except.error` models the uncaught
`IndexError` of the nested compact-index read; the outer `none` models the
breaks on invalid struct names. -/
def decode_struct_name (data : List Nat) (names : List String)
    (prop_type : Nat) (offset : Nat) :
    Except PyErr (Option (Option String × Nat)) :=
  if prop_type = 10 then
    match read_compact_index_at data offset with
    | .error e => .error e
    | .ok (struct_idx, off') =>
      if 0 ≤ struct_idx ∧ struct_idx < (names.length : Int) then
        let s := names.getD struct_idx.toNat ""
        if s ∈ INVALID_STRUCT_NAMES then .ok Option.none
        else if 3 < s.length ∧ last_char_is_digit s then .ok Option.none
        else .ok (some (some s, off'))
      else .ok (some (Option.none, off'))
  else .ok (some (Option.none, offset))

/-- Reads the optional array index byte (`parse_properties`,
lines 881-886): skipped entirely for Bool-typed properties. -/
def decode_array_index (data : List Nat) (prop_type array_flag : Nat)
    (offset : Nat) : Nat × Nat :=
  if array_flag ≠ 0 ∧ prop_type ≠ 3 then
    if offset < data.length then (data.getD offset 0, offset + 1)
    else (0, offset)
  else (0, offset)

/-- Printability validation of a decoded String/Str value: empty, or at
least 50 percent printable ASCII (`parse_properties`, lines 927-932). -/
def decoded_printable_ok (bytes : List Nat) : Bool :=
  bytes.length = 0 ∨ bytes.length ≤ 2 * bytes.countP (fun b => 32 ≤ b ∧ b ≤ 126)

/-- Little-endian 32-bit read inside a value-bytes buffer. -/
def le32 (bs : List Nat) (k : Nat) : Nat :=
  bs.getD k 0 + 256 * bs.getD (k + 1) 0 + 65536 * bs.getD (k + 2) 0 +
    16777216 * bs.getD (k + 3) 0

/-- Value parsing by property type (`parse_properties`, lines 896-949).
Exceptions inside this region are caught by the source's try/except, so the
result is always a plain value. -/
def parse_typed_value (names : List String) (prop_type array_flag : Nat)
    (struct_name : Option String) (value_bytes : List Nat) : PropValue :=
  if prop_type = 1 then
    match value_bytes with
    | [] => .none
    | b :: _ => .byte b
  else if prop_type = 2 then
    if 4 ≤ value_bytes.length then .int (toSigned32 (le32 value_bytes 0))
    else .none
  else if prop_type = 3 then .bool (array_flag != 0)
  else if prop_type = 4 then
    if 4 ≤ value_bytes.length then .floatBits (value_bytes.take 4) else .none
  else if prop_type = 5 ∨ prop_type = 8 then
    match read_compact_index_at value_bytes 0 with
    | .ok (i, _) => .objRef i
    | .error _ => .none
  else if prop_type = 6 then
    match read_compact_index_at value_bytes 0 with
    | .ok (i, _) =>
      if 0 ≤ i ∧ i < (names.length : Int) then .name (names.getD i.toNat "")
      else .none
    | .error _ => .none
  else if prop_type = 7 ∨ prop_type = 13 then
    match read_compact_index_at value_bytes 0 with
    | .ok (str_len, str_start) =>
      if 0 < str_len ∧ str_start + str_len.toNat ≤ value_bytes.length then
        let str_data := (value_bytes.drop str_start).take (str_len.toNat - 1)
        if decoded_printable_ok str_data then .str str_data else .none
      else .none
    | .error _ => .none
  else if prop_type = 9 then .arrayOpaque value_bytes
  else if prop_type = 10 then .structOpaque struct_name value_bytes
  else if prop_type = 11 then
    if 12 ≤ value_bytes.length then .vectorBits (value_bytes.take 12)
    else .none
  else if prop_type = 12 then
    if 12 ≤ value_bytes.length then
      .rotator (toSigned32 (le32 value_bytes 0)) (toSigned32 (le32 value_bytes 4))
        (toSigned32 (le32 value_bytes 8))
    else .none
  else .none

/-- Reads the value payload (`parse_properties`, lines 888-951): when the
declared size does not fit in the remaining buffer, no bytes are consumed
and the value stays `None`; the record is appended either way. -/
def decode_value (data : List Nat) (names : List String)
    (prop_type prop_size array_flag : Nat) (struct_name : Option String)
    (offset : Nat) : PropValue × Option (List Nat) × Nat :=
  if offset + prop_size ≤ data.length then
    let value_bytes := (data.drop offset).take prop_size
    (parse_typed_value names prop_type array_flag struct_name value_bytes,
      some value_bytes, offset + prop_size)
  else (.none, Option.none, offset)

/-- The decode loop of `parse_properties` (`src/ue2/properties.py`,
lines 777-966), fuel-indexed.  State: accumulated properties, current
offset, count of consecutive "None" terminators, and the index of the
current property list.  A single "None" advances to the next property list;
two consecutive "None"s stop; every other break of the source returns the
accumulated list; uncaught exceptions propagate as `Except.error`.  The fuel
passed by `parse_properties` exceeds the maximal number of iterations, so
fuel exhaustion is unreachable. -/
def parse_properties_go (data : List Nat) (names : List String) :
    Nat → List PProp → Nat → Nat → Nat → Except PyErr (List PProp) :=
  fun fuel acc offset nones cur =>
  match fuel with
  | 0 => .ok acc
  | fuel' + 1 =>
    if ¬ (offset + 1 < data.length ∧ acc.length < 200) then .ok acc
    else
      match read_prop_name data names offset with
      | .error e => .error e
      | .ok Option.none => .ok acc
      | .ok (some (prop_name, new_offset)) =>
        if prop_name = "None" then
          if nones + 1 ≥ 2 then .ok acc
          else parse_properties_go data names fuel' acc new_offset (nones + 1)
            (cur + 1)
        else
          match decode_info_size data prop_name new_offset with
          | Option.none => .ok acc
          | some (prop_type, _size_type, array_flag, prop_size, off2) =>
            if ¬ validate_property_type_size prop_type prop_size then .ok acc
            else if prop_size > 10000000 then .ok acc
            else
              match decode_struct_name data names prop_type off2 with
              | .error e => .error e
              | .ok Option.none => .ok acc
              | .ok (some (struct_name, off3)) =>
                let ai := decode_array_index data prop_type array_flag off3
                let dv := decode_value data names prop_type prop_size
                  array_flag struct_name ai.2
                parse_properties_go data names fuel'
                  (acc ++ [⟨prop_name, PROP_TYPES prop_type, prop_size, ai.1,
                    struct_name, dv.1, dv.2.1, cur⟩])
                  dv.2.2 0 cur

/-- Property-list decoder, `parse_properties` of `src/ue2/properties.py`
(lines 777-966). -/
def parse_properties (data : List Nat) (names : List String)
    (start_offset : Nat) : Except PyErr (List PProp) :=
  parse_properties_go data names (data.length + 1) [] start_offset 0 0


/-- The offset returned by `decode_size` stays within the buffer. -/
theorem decode_size_le (data : List Nat) (size_type off1 sz off2 : Nat)
    (h : decode_size data size_type off1 = some (sz, off2))
    (hoff : off1 ≤ data.length) : off2 ≤ data.length := by
  simp only [decode_size] at h
  split_ifs at h <;> simp only [Option.some.injEq, Prod.mk.injEq] at h <;> omega

/-- The offset returned by `decode_info_size` never exceeds the buffer. -/
theorem decode_info_size_le (data : List Nat) (nm : String)
    (off t st af sz off2 : Nat)
    (h : decode_info_size data nm off = some (t, st, af, sz, off2)) :
    off2 ≤ data.length := by
  simp only [decode_info_size] at h
  split at h
  · cases h
  · split at h
    · cases h
    · split at h
      · cases h
      · rename_i hlen _ _
        cases hs : decode_size data (data.getD off 0 >>> 4 &&& 7) (off + 1) with
        | none => rw [hs] at h; cases h
        | some pr =>
          rw [hs] at h
          obtain ⟨sz', off2'⟩ := pr
          simp only [Option.some.injEq, Prod.mk.injEq] at h
          obtain ⟨-, -, -, -, h5⟩ := h
          have := decode_size_le data _ _ _ _ hs (by omega)
          omega

/-- Any record whose decoded (type, size) pair fails
`validate_property_type_size` halts the decode loop, returning exactly the
properties accumulated so far and consuming nothing further
(`parse_properties`, lines 861-863). -/
theorem parse_properties_go_halts_on_invalid (data : List Nat)
    (names : List String) (fuel : Nat) (acc : List PProp)
    (offset nones cur : Nat) (nm : String) (off1 t st af sz off2 : Nat)
    (h1 : read_prop_name data names offset = .ok (some (nm, off1)))
    (h2 : nm ≠ "None")
    (h3 : decode_info_size data nm off1 = some (t, st, af, sz, off2))
    (h4 : validate_property_type_size t sz = false) :
    parse_properties_go data names (fuel + 1) acc offset nones cur = .ok acc := by
  by_cases hg : offset + 1 < data.length ∧ acc.length < 200
  · simp only [parse_properties_go]
    rw [if_neg (not_not_intro hg), h1]
    dsimp only
    rw [if_neg h2, h3]
    dsimp only
    simp only [h4, Bool.false_eq_true, not_false_eq_true, if_true]
  · simp only [parse_properties_go]
    rw [if_pos hg]

/-- The decode loop never accumulates beyond 200 properties. -/
theorem parse_properties_go_length (data : List Nat) (names : List String) :
    ∀ fuel acc offset nones cur l, acc.length ≤ 200 →
      parse_properties_go data names fuel acc offset nones cur = .ok l →
      l.length ≤ 200 := by
  intro fuel
  induction fuel with
  | zero =>
    intro acc offset nones cur l hacc h
    simp only [parse_properties_go] at h
    cases h
    exact hacc
  | succ f ih =>
    intro acc offset nones cur l hacc h
    simp only [parse_properties_go] at h
    split at h
    · cases h
      exact hacc
    · rename_i hguard
      cases hread : read_prop_name data names offset with
      | error e =>
        rw [hread] at h
        cases h
      | ok o =>
        rw [hread] at h
        cases o with
        | none => cases h; exact hacc
        | some pr =>
          obtain ⟨prop_name, new_offset⟩ := pr
          dsimp only at h
          by_cases hn : prop_name = "None"
          · rw [if_pos hn] at h
            split at h
            · cases h; exact hacc
            · exact ih _ _ _ _ _ hacc h
          · rw [if_neg hn] at h
            cases hinfo : decode_info_size data prop_name new_offset with
            | none =>
              rw [hinfo] at h
              cases h; exact hacc
            | some tup =>
              rw [hinfo] at h
              obtain ⟨pt, st, af, sz, off2⟩ := tup
              dsimp only at h
              split at h
              · cases h; exact hacc
              · split at h
                · cases h; exact hacc
                · cases hsn : decode_struct_name data names pt off2 with
                  | error e => rw [hsn] at h; cases h
                  | ok o2 =>
                    rw [hsn] at h
                    cases o2 with
                    | none => cases h; exact hacc
                    | some pr2 =>
                      obtain ⟨sname, off3⟩ := pr2
                      dsimp only at h
                      refine ih _ _ _ _ _ ?_ h
                      have h200 : acc.length < 200 := (not_not.mp hguard).2
                      simp only [List.length_append, List.length_cons,
                        List.length_nil]
                      omega

/-- Concrete name table for the two-list property example. -/
def namesC3 : List String := ["None", "A", "B"]

/-- Concrete buffer: an Int property "A", a single "None", a second list
with Int property "B", a double "None", then two junk bytes. -/
def dataC3 : List Nat := [1, 0x22, 7, 0, 0, 0, 0, 2, 0x22, 9, 0, 0, 0, 0, 0, 255, 255]

/-- The first decoded property of `dataC3`, tagged with list index 0. -/
def propA_C3 : PProp :=
  ⟨"A", "Int", 4, 0, Option.none, .int 7, some [7, 0, 0, 0], 0⟩

/-- The second decoded property of `dataC3`, from the second property list,
tagged with list index 1. -/
def propB_C3 : PProp :=
  ⟨"B", "Int", 4, 0, Option.none, .int 9, some [9, 0, 0, 0], 1⟩

/-- C3: `parse_properties` does not stop at the first "None" terminator: a
single "None" moves decoding into the following property list (incrementing
the list counter and arming the consecutive-None counter), a "None" read
with one already pending stops decoding immediately, every returned property
carries a `list_index` tag, and on a concrete buffer holding one property
list, a "None", a second list and a double "None" followed by junk bytes,
decoding returns both lists' properties tagged 0 and 1 and stops at the
second "None" even though further bytes follow. -/
theorem claim_C3_none_termination :
    (∀ data names fuel acc offset cur off',
      read_prop_name data names offset = .ok (some ("None", off')) →
      offset + 1 < data.length → acc.length < 200 →
      parse_properties_go data names (fuel + 1) acc offset 0 cur =
        parse_properties_go data names fuel acc off' 1 (cur + 1)) ∧
    (∀ data names fuel acc offset cur off',
      read_prop_name data names offset = .ok (some ("None", off')) →
      parse_properties_go data names (fuel + 1) acc offset 1 cur = .ok acc) ∧
    parse_properties dataC3 namesC3 0 = .ok [propA_C3, propB_C3] ∧
    propA_C3.list_index = 0 ∧ propB_C3.list_index = 1 := by
  refine ⟨?_, ?_, ?_, rfl, rfl⟩
  · intro data names fuel acc offset cur off' h1 h2 h3
    simp only [parse_properties_go]
    rw [if_neg (not_not_intro ⟨h2, h3⟩), h1]
    dsimp only
    norm_num
  · intro data names fuel acc offset cur off' h1
    by_cases hg : offset + 1 < data.length ∧ acc.length < 200
    · simp only [parse_properties_go]
      rw [if_neg (not_not_intro hg), h1]
      dsimp only
      norm_num
    · simp only [parse_properties_go]
      rw [if_pos hg]
  · rfl

/-- Witness for C3: the two general conjuncts applied on the concrete
buffer `dataC3` at its two "None" records (offsets 6 and 13). -/
theorem claim_C3_witness :
    parse_properties_go dataC3 namesC3 11 [propA_C3] 6 0 1 =
      parse_properties_go dataC3 namesC3 10 [propA_C3] 7 1 2 ∧
    parse_properties_go dataC3 namesC3 4 [propA_C3, propB_C3] 14 1 2 =
      .ok [propA_C3, propB_C3] := by
  constructor
  · exact claim_C3_none_termination.1 dataC3 namesC3 10 [propA_C3] 6 1 7 rfl
      (by decide) (by decide)
  · exact claim_C3_none_termination.2.1 dataC3 namesC3 3
      [propA_C3, propB_C3] 14 2 15 rfl


/-- Placeholder property record used to exhibit the 200-property cap. -/
def propCap : PProp := ⟨"X", "Int", 4, 0, Option.none, .int 0, Option.none, 0⟩

/-- C10: `parse_properties` returns at most 200 properties, and once 200
have been accumulated the decode loop stops at once, regardless of the
remaining buffer contents and without any double-"None" terminator. -/
theorem claim_C10_property_cap :
    (∀ data names start l,
      parse_properties data names start = .ok l → l.length ≤ 200) ∧
    (∀ data names fuel acc offset nones cur, 200 ≤ acc.length →
      parse_properties_go data names fuel acc offset nones cur = .ok acc) := by
  constructor
  · intro data names start l h
    exact parse_properties_go_length data names _ [] start 0 0 l (by simp) h
  · intro data names fuel acc offset nones cur hacc
    cases fuel with
    | zero => simp [parse_properties_go]
    | succ f =>
      simp only [parse_properties_go]
      rw [if_pos (fun hc => by omega)]

set_option maxRecDepth 8000 in
/-- Witness for C10: the cap theorem applied to the concrete two-property
parse of `dataC3`, and the early-stop conjunct applied to a 200-element
accumulator sitting in front of a buffer with further well-formed records. -/
theorem claim_C10_witness :
    ([propA_C3, propB_C3] : List PProp).length ≤ 200 ∧
    parse_properties_go dataC3 namesC3 18 (List.replicate 200 propCap) 0 0 0 =
      .ok (List.replicate 200 propCap) := by
  constructor
  · exact claim_C10_property_cap.1 dataC3 namesC3 0 [propA_C3, propB_C3] rfl
  · exact claim_C10_property_cap.2 dataC3 namesC3 18 (List.replicate 200 propCap)
      0 0 0 (by simp)

/-- C4: the type/size validity table rejects a Float whose declared size is
not exactly 4, a String whose declared size is below 2, and the Map and
FixedArray type codes outright; and any record failing the table halts
decoding at that record, appending nothing for it and leaving every
previously decoded property intact in the returned list. -/
theorem claim_C4_type_size_validation :
    (∀ s, validate_property_type_size 4 s = true ↔ s = 4) ∧
    (∀ s, validate_property_type_size 7 s = true ↔ 2 ≤ s) ∧
    (∀ s, validate_property_type_size 14 s = false) ∧
    (∀ s, validate_property_type_size 15 s = false) ∧
    (∀ data names fuel acc offset nones cur nm off1 t st af sz off2,
      read_prop_name data names offset = .ok (some (nm, off1)) →
      nm ≠ "None" →
      decode_info_size data nm off1 = some (t, st, af, sz, off2) →
      validate_property_type_size t sz = false →
      parse_properties_go data names (fuel + 1) acc offset nones cur = .ok acc) := by
  refine ⟨?_, ?_, fun s => rfl, fun s => rfl, ?_⟩
  · intro s
    simp only [validate_property_type_size, INVALID_TYPES, EXPECTED_SIZES]
    norm_num
  · intro s
    simp only [validate_property_type_size, INVALID_TYPES, EXPECTED_SIZES,
      MIN_SIZES, MAX_SIZES]
    norm_num
  · intro data names fuel acc offset nones cur nm off1 t st af sz off2 h1 h2 h3 h4
    exact parse_properties_go_halts_on_invalid data names fuel acc offset
      nones cur nm off1 t st af sz off2 h1 h2 h3 h4

/-- Concrete name table for the invalid Float record. -/
def namesC4 : List String := ["None", "F"]

/-- Concrete buffer: property "F" declared as type Float with size 7, an
impossible combination. -/
def dataC4 : List Nat := [1, 0x54, 7, 0, 0]

/-- Witness for C4: the halt conjunct applied to the concrete buffer whose
first record is a Float of declared size 7; decoding halts with no
properties emitted. -/
theorem claim_C4_witness :
    parse_properties dataC4 namesC4 0 = .ok [] := by
  exact claim_C4_type_size_validation.2.2.2.2 dataC4 namesC4 5 [] 0 0 0
    "F" 1 4 5 0 7 3 rfl (by decide) rfl rfl

/-- C5: a property record with type tag 3 (bool) consumes zero payload
bytes for its value whatever the size-class bits say, and its value is the
array-flag bit of the info byte: the validity table admits a bool record
exactly when its decoded size is 0; such a record is emitted with value
equal to the array flag, the decoder resuming immediately after the size
field (zero payload consumed, empty value bytes); and a bool record whose
size class decodes to any non-zero size halts decoding on the spot, again
consuming no payload. -/
theorem claim_C5_bool_zero_payload :
    (∀ sz, validate_property_type_size 3 sz = true ↔ sz = 0) ∧
    (∀ data names fuel acc offset nones cur nm off1 st af off2,
      read_prop_name data names offset = .ok (some (nm, off1)) →
      nm ≠ "None" →
      offset + 1 < data.length →
      acc.length < 200 →
      decode_info_size data nm off1 = some (3, st, af, 0, off2) →
      parse_properties_go data names (fuel + 1) acc offset nones cur =
        parse_properties_go data names fuel
          (acc ++ [⟨nm, "Bool", 0, 0, Option.none, .bool (af != 0), some [], cur⟩])
          off2 0 cur) ∧
    (∀ data names fuel acc offset nones cur nm off1 st af sz off2,
      read_prop_name data names offset = .ok (some (nm, off1)) →
      nm ≠ "None" →
      decode_info_size data nm off1 = some (3, st, af, sz, off2) →
      sz ≠ 0 →
      parse_properties_go data names (fuel + 1) acc offset nones cur = .ok acc) := by
  refine ⟨?_, ?_, ?_⟩
  · intro sz
    simp only [validate_property_type_size, INVALID_TYPES, EXPECTED_SIZES]
    norm_num
  · intro data names fuel acc offset nones cur nm off1 st af off2 h1 h2 hoff hacc h3
    have hle := decode_info_size_le data nm off1 3 st af 0 off2 h3
    have hval : validate_property_type_size 3 0 = true := rfl
    have hsn : decode_struct_name data names 3 off2 = .ok (some (Option.none, off2)) := rfl
    have hai : decode_array_index data 3 af off2 = (0, off2) := by
      simp [decode_array_index]
    have hdv : decode_value data names 3 0 af Option.none off2 =
        (.bool (af != 0), some [], off2) := by
      simp only [decode_value]
      rw [if_pos (by omega)]
      simp [parse_typed_value]
    simp only [parse_properties_go]
    rw [if_neg (not_not_intro ⟨hoff, hacc⟩), h1]
    dsimp only
    rw [if_neg h2, h3]
    dsimp only
    rw [hsn]
    dsimp only
    rw [hai, hdv]
    simp [hval, PROP_TYPES]
  · intro data names fuel acc offset nones cur nm off1 st af sz off2 h1 h2 h3 hsz
    have hv : validate_property_type_size 3 sz = false := by
      simp only [validate_property_type_size, INVALID_TYPES, EXPECTED_SIZES]
      simp [hsz]
    exact parse_properties_go_halts_on_invalid data names fuel acc offset
      nones cur nm off1 3 st af sz off2 h1 h2 h3 hv

/-- Concrete name table for the bool record. -/
def namesC5 : List String := ["None", "bCollideActors"]

/-- Concrete buffer: info byte 0xD3 is type 3 (bool), size class 5 and a
set array flag; the size byte 0 decodes to size 0. -/
def dataC5 : List Nat := [1, 0xD3, 0]

/-- Witness for C5: the bool-emission conjunct applied to the concrete
buffer; the record's value is the array flag (true) and no payload bytes
are consumed. -/
theorem claim_C5_witness :
    parse_properties dataC5 namesC5 0 =
      .ok [⟨"bCollideActors", "Bool", 0, 0, Option.none, .bool true, some [], 0⟩] := by
  have h := claim_C5_bool_zero_payload.2.1 dataC5 namesC5 3 [] 0 0 0
    "bCollideActors" 1 5 1 3 rfl (by decide) (by decide) (by decide) rfl
  exact h.trans rfl

/-- Little-endian signed 32-bit read at a Nat offset via default-padded
byte access; used only under in-range guards, mirroring `struct.unpack`
calls whose slices are guaranteed full by a preceding length check. -/
def i32at (data : List Nat) (pos : Nat) : Int := toSigned32 (le32 data pos)

/-- The property skipper of the StaticMesh decoder, `find_none_terminator`
of `src/scripts/lib/staticmesh_construct.py` (lines 184-241), fuel-indexed
(the fuel used always exceeds the iteration count, and fuel exhaustion maps
to the same ValueError as the loop's limit exit).  Unlike
`parse_properties` it returns as soon as name index 0 is read, reads a
compact index (not one byte) for the array index, and consumes no size
field at all for bool-typed records. -/
def find_none_terminator_go (data : List Nat) (names : List String)
    (max_pos : Nat) : Nat → Nat → Except PyErr Nat := fun fuel pos =>
  match fuel with
  | 0 => .error (.valueError "Never found None terminator or exceeded limit")
  | fuel' + 1 =>
    if pos ≥ max_pos then
      .error (.valueError "Never found None terminator or exceeded limit")
    else
      match read_compact_index_at data pos with
      | .error _ =>
        .error (.valueError
          "Unexpected end of data or invalid compact index in properties")
      | .ok (name_idx, pos1) =>
        if name_idx = 0 then .ok pos1
        else if name_idx < 0 ∨ (names.length : Int) ≤ name_idx then
          .error (.valueError ("Invalid name index " ++ toString name_idx))
        else if pos1 ≥ data.length then
          .error (.valueError "Never found None terminator or exceeded limit")
        else
          let info := data.getD pos1 0
          let pos2 := pos1 + 1
          let prop_type := info &&& 0x0F
          let size_type := (info >>> 4) &&& 0x07
          let is_array := info &&& 0x80
          match
            (if prop_type = 3 then .ok (0, pos2)
             else if size_type = 0 then .ok (1, pos2)
             else if size_type = 1 then .ok (2, pos2)
             else if size_type = 2 then .ok (4, pos2)
             else if size_type = 3 then .ok (12, pos2)
             else if size_type = 4 then .ok (16, pos2)
             else if size_type = 5 then
               if pos2 ≥ data.length then .error PyErr.indexError
               else .ok (data.getD pos2 0, pos2 + 1)
             else if size_type = 6 then
               match unpackU16 data pos2 with
               | .ok sz => .ok (sz, pos2 + 2)
               | .error e => .error e
             else
               match unpackU32 data pos2 with
               | .ok sz => .ok (sz, pos2 + 4)
               | .error e => .error e : Except PyErr (Nat × Nat)) with
          | .error e => .error e
          | .ok (size, pos3) =>
            match
              (if prop_type = 10 then
                match read_compact_index_at data pos3 with
                | .ok (_, p) => .ok p
                | .error e => .error e
              else .ok pos3 : Except PyErr Nat) with
            | .error e => .error e
            | .ok pos4 =>
              match
                (if is_array ≠ 0 ∧ prop_type ≠ 3 then
                  match read_compact_index_at data pos4 with
                  | .ok (_, p) => .ok p
                  | .error e => .error e
                else .ok pos4 : Except PyErr Nat) with
              | .error e => .error e
              | .ok pos5 => find_none_terminator_go data names max_pos fuel' (pos5 + size)

/-- Property-end finder of the StaticMesh decoder (lines 184-241). -/
def find_none_terminator (data : List Nat) (names : List String) :
    Except PyErr Nat :=
  let max_pos := min data.length (1024 * 1024)
  find_none_terminator_go data names max_pos (max_pos + 1) 0

/-- Known InternalVersion anchor values, `v_anchors` of `parse_staticmesh`
(line 304). -/
def v_anchors : List Int := [60482, 60484, 11, 12, 128, 129]

/-- The first version scan of `parse_staticmesh` (lines 276-294): its
found/not-found outcome survives only as a leftover parse_status mutation
(line 297 sets 'error' without returning) and as the uses_heuristics flag;
its core_start assignment is overwritten by the later search.  Returns
(found_core, uses_heuristics_set).  The s_count read can raise struct.error
when the anchor sits within 49 bytes of the end of the buffer. -/
def scan1_loop (data : List Nat) : List Nat → Except PyErr Bool
  | [] => .ok false
  | offset :: rest =>
    if offset + 45 ≤ data.length then
      if i32at data (offset + 41) = 11 ∨ i32at data (offset + 41) = 12 then
        match unpackI32 data ((offset : Int) + 45) with
        | .error e => .error e
        | .ok sc =>
          if 0 ≤ sc ∧ sc < 200 then .ok true
          else scan1_loop data rest
      else scan1_loop data rest
    else scan1_loop data rest

/-- The pre-check plus scan loop of lines 276-294; see `scan1_loop`. -/
def scan1 (data : List Nat) (prop_end : Nat) : Except PyErr (Bool × Bool) :=
  if prop_end + 45 ≤ data.length ∧
      (i32at data (prop_end + 41) = 11 ∨ i32at data (prop_end + 41) = 12) then
    .ok (true, false)
  else
    match scan1_loop data (List.range (min data.length 2000)) with
    | .error e => .error e
    | .ok b => .ok (b, b)

/-- Expected-offset anchor check of `parse_staticmesh` (lines 307-314):
the InternalVersion anchor is probed at prop_end + 40 and prop_end + 41. -/
def find_core_pathA (data : List Nat) (prop_end : Nat) : Option Nat :=
  if prop_end + 44 ≤ data.length ∧ i32at data (prop_end + 40) ∈ v_anchors then
    some prop_end
  else if prop_end + 45 ≤ data.length ∧ i32at data (prop_end + 41) ∈ v_anchors then
    some prop_end
  else none

/-- One probe of the brute-force anchor search (lines 320-331): at offset i
the version anchor is tried at i + 40 and i + 41, each with a sane section
count right after it. -/
def scan2_hit (data : List Nat) (i : Nat) : Bool :=
  (decide (i32at data (i + 40) ∈ v_anchors) &&
    decide (0 ≤ i32at data (i + 44)) && decide (i32at data (i + 44) < 200)) ||
  (decide (i32at data (i + 41) ∈ v_anchors) &&
    decide (0 ≤ i32at data (i + 45)) && decide (i32at data (i + 45) < 200))

/-- Brute-force anchor search over the first 2KB (lines 316-331); all reads
are in range because the searched offsets stop 49 bytes short of the end. -/
def find_core_scan2 (data : List Nat) : Option Nat :=
  (List.range (min ((data.length : Int) - 49) 2048).toNat).find?
    (fun i => scan2_hit data i)

/-- Combined anchor location: path A first, then the brute-force scan,
returning the core start together with the uses_heuristics flag the scan
sets (lines 303-331). -/
def find_core_start (data : List Nat) (prop_end : Nat) : Option (Nat × Bool) :=
  match find_core_pathA data prop_end with
  | some cs => some (cs, false)
  | Option.none =>
    match find_core_scan2 data with
    | some i => some (i, true)
    | Option.none => none

/-- Python `data.find(b'\x00' * 6, search_start)`: index of the first
6-byte all-zero window at or after the (Python-normalised) start, -1 when
there is none. -/
def pyFindZeros6 (data : List Nat) (start : Int) : Int :=
  match (List.range (data.length + 1)).find?
      (fun j => decide (pyIx data.length start ≤ j) &&
        decide (pySlice data j ((j : Int) + 6) = [0, 0, 0, 0, 0, 0])) with
  | some j => (j : Int)
  | Option.none => -1

/-- The section-size heuristic of `parse_staticmesh` (lines 347-356): probe
candidate section sizes until vertex and color counts read as zero; 14 is
the default when no candidate matches.  The color-count read can raise
struct.error (the source guards only probe_pos + 8). -/
def section_size_loop (data : List Nat) (start sec_count : Int) :
    List Nat → Except PyErr Nat
  | [] => .ok 14
  | s :: rest =>
    let probe_pos : Int := start + sec_count * (s : Int)
    if probe_pos + 8 ≤ (data.length : Int) then
      match unpackI32 data probe_pos with
      | .error e => .error e
      | .ok v_cnt =>
        match unpackI32 data (probe_pos + 8) with
        | .error e => .error e
        | .ok c_cnt =>
          if v_cnt = 0 ∧ c_cnt = 0 then .ok s
          else section_size_loop data start sec_count rest
    else section_size_loop data start sec_count rest

/-- construct `Int32ul.parse_stream`: reads exactly four bytes from the
BytesIO stream or raises StreamError. -/
def stream_read_u32 (buf : List Nat) (pos : Nat) : Except PyErr (Nat × Nat) :=
  if pos + 4 ≤ buf.length then .ok (le32 buf pos, pos + 4)
  else .error .streamError

/-- construct `Int32sl.parse_stream`. -/
def stream_read_i32 (buf : List Nat) (pos : Nat) : Except PyErr (Int × Nat) :=
  if pos + 4 ≤ buf.length then .ok (toSigned32 (le32 buf pos), pos + 4)
  else .error .streamError

/-- Python `BytesIO.read(n)`: returns up to n bytes and advances by the
number actually returned. -/
def stream_read (buf : List Nat) (pos n : Nat) : List Nat × Nat :=
  ((buf.drop pos).take n, min (pos + n) buf.length)

/-- Decodes a little-endian uint16 array, `struct.unpack(f"<{n}H", raw)`. -/
def u16_pairs : List Nat → List Nat
  | b0 :: b1 :: rest => (b0 + 256 * b1) :: u16_pairs rest
  | _ => []

/-- The per-vertex parse of `parse_staticmesh` (lines 502-520): a vertex
record is kept whenever at least its 12 position bytes are present; the
float fields are opaque here, so each kept vertex is its raw 56-byte
window. -/
def parse_vertex_windows (vertices_data : List Nat) (vertex_count : Nat) :
    List (List Nat) :=
  (List.range vertex_count).filterMap (fun v_idx =>
    if v_idx * 56 + 12 ≤ vertices_data.length then
      some ((vertices_data.drop (v_idx * 56)).take 56)
    else none)

/-- The fixed-slot index-buffer read of `parse_staticmesh`
(lines 532-553, final field of the post-vertex header plus the raw read):
a 32-bit count followed immediately by count 16-bit indices, guarded only
by the absurd-count ceiling and a truncation check — no validity test
against the vertex array takes place.  Returns (count, indices, new
stream position). -/
def read_fixed_index_buffer (post : List Nat) (pos : Nat) :
    Except PyErr (Nat × List Nat × Nat) :=
  match stream_read_u32 post pos with
  | .error e => .error e
  | .ok (index_count, pos6) =>
    if index_count > 1000000 then
      .error (.valueError ("Absurd LOD index count: " ++ toString index_count))
    else
      let ri := stream_read post pos6 (index_count * 2)
      if ri.1.length < index_count * 2 then
        .error (.valueError ("Truncated LOD index buffer: expected " ++
          toString (index_count * 2) ++ ", got " ++ toString ri.1.length))
      else .ok (index_count, u16_pairs ri.1, ri.2)

/-- One parsed LOD block of `parse_staticmesh` (lines 435-555).  The
version-1 header carries a section count; the version-0 header two unknown
words.  Vertices are raw 56-byte windows (float fields opaque). -/
structure LodData where
  version : Int
  section_count : Option Nat
  unknown_0 : Option Nat
  unknown_1 : Option Nat
  vertex_count : Nat
  vertices_raw : List Nat
  vertices : List (List Nat)
  pv_val1 : Nat
  pv_val2 : Nat
  pv_val3 : Nat
  index_count : Nat
  indices : List Nat
deriving DecidableEq, Repr

/-- Unknown trailing region recorded by `parse_staticmesh`
(lines 562-569); `raw` carries the bytes whose hex dump the source
stores. -/
structure UnknownRegion where
  offset_start : Int
  offset_end : Int
  size : Int
  raw : List Nat
  context : String
deriving DecidableEq, Repr

/-- The result dictionary of `parse_staticmesh` (lines 253-262 plus the
keys added while parsing); dictionary keys that are only present on some
paths are `Option` fields.  `coverage_pct` is the exact rational value of
the float the source computes. -/
structure ParseResult where
  bytes_total : Int
  bytes_parsed : Int
  bytes_unknown : Int
  coverage_pct : ℚ
  uses_heuristics : Bool
  uses_skips : Bool
  parse_status : Option String
  error_message : Option String
  properties_end : Option Nat
  core_internal_version : Option Int
  core_section_count : Option Int
  core_skip_pos : Option Nat
  raw_triangles_payload_size : Option Int
  physics_ref : Option Int
  auth_key : Option Int
  lod_version : Option Int
  lod_count : Option Int
  lods : List LodData
  unknown_regions : List UnknownRegion
deriving DecidableEq, Repr

/-- The LOD loop of `parse_staticmesh` (lines 431-555) over the post-skip
stream: iterates `lod_count` times, accumulating parsed-byte increments
exactly as the source does (declared byte counts, even when a stream read
returns fewer bytes).  An absurd index count (> 1,000,000) or a truncated
index buffer raises ValueError, which propagates out of the parser. -/
def parse_lods (post : List Nat) (lod_version : Int) :
    Nat → Nat → Int → List LodData → Except PyErr (Nat × Int × List LodData)
  | 0, pos, parsedAdd, acc => .ok (pos, parsedAdd, acc)
  | k + 1, pos, parsedAdd, acc =>
    match
      (if lod_version = 1 then
        match stream_read_u32 post pos with
        | .error e => .error e
        | .ok (sec_count, pos1) =>
          match stream_read_u32 post pos1 with
          | .error e => .error e
          | .ok (unk1, pos2) =>
            match stream_read_u32 post pos2 with
            | .error e => .error e
            | .ok (val3, pos3) =>
              if sec_count > 0 then
                let section_bytes := sec_count * 20
                let r := stream_read post pos3 section_bytes
                match stream_read_u32 post r.2 with
                | .error e => .error e
                | .ok (vc0, pos4) =>
                  let vc := if vc0 > 500000 then 0 else vc0
                  .ok (some sec_count, Option.none, some unk1, vc, pos4,
                    parsedAdd + 12 + (section_bytes : Int) + 4)
              else
                .ok (some sec_count, Option.none, some unk1, val3, pos3,
                  parsedAdd + 12)
      else
        match stream_read_u32 post pos with
        | .error e => .error e
        | .ok (unk0, pos1) =>
          match stream_read_u32 post pos1 with
          | .error e => .error e
          | .ok (unk1, pos2) =>
            match stream_read_u32 post pos2 with
            | .error e => .error e
            | .ok (vc, pos3) =>
              .ok (Option.none, some unk0, some unk1, vc, pos3, parsedAdd + 12)
        : Except PyErr (Option Nat × Option Nat × Option Nat × Nat × Nat × Int)) with
    | .error e => .error e
    | .ok (secCount, unknown0, unknown1, vertex_count, posH, parsedH) =>
      let vertex_bytes := vertex_count * 56
      let rv := stream_read post posH vertex_bytes
      let vertices_data := rv.1
      let posV := rv.2
      let parsedV := parsedH + (vertex_bytes : Int)
      let windows := parse_vertex_windows vertices_data vertex_count
      match stream_read_u32 post posV with
      | .error e => .error e
      | .ok (val1, pos1) =>
        match stream_read_u32 post pos1 with
        | .error e => .error e
        | .ok (_unk0, pos2) =>
          match stream_read_u32 post pos2 with
          | .error e => .error e
          | .ok (val2, pos3) =>
            match stream_read_u32 post pos3 with
            | .error e => .error e
            | .ok (_unk1, pos4) =>
              match stream_read_u32 post pos4 with
              | .error e => .error e
              | .ok (val3, pos5) =>
                match read_fixed_index_buffer post pos5 with
                | .error e => .error e
                | .ok fib =>
                  parse_lods post lod_version k fib.2.2
                    (parsedV + 24 + (fib.1 * 2 : Nat)) (acc ++
                      [⟨lod_version, secCount, unknown0, unknown1,
                        vertex_count, vertices_data, windows, val1, val2,
                        val3, fib.1, fib.2.1⟩])

/-- Error result of `parse_staticmesh` when no InternalVersion anchor is
found (lines 333-336): parse_status 'error' with a diagnostic message, the
bytes-parsed counter still holding the property-block size. -/
def mkAnchorError (data : List Nat) (prop_end : Nat) (heur : Bool) :
    ParseResult where
  bytes_total := data.length
  bytes_parsed := prop_end
  bytes_unknown := 0
  coverage_pct := 0
  uses_heuristics := heur
  uses_skips := false
  parse_status := some "error"
  error_message := some "Could not find StaticMesh core anchor (InternalVersion)"
  properties_end := some prop_end
  core_internal_version := Option.none
  core_section_count := Option.none
  core_skip_pos := Option.none
  raw_triangles_payload_size := Option.none
  physics_ref := Option.none
  auth_key := Option.none
  lod_version := Option.none
  lod_count := Option.none
  lods := []
  unknown_regions := []

/-- Error result when the RawTriangles sync padding is missing
(lines 371-374). -/
def mkPaddingError (data : List Nat) (prop_end : Nat) (heur : Bool) :
    ParseResult where
  bytes_total := data.length
  bytes_parsed := prop_end
  bytes_unknown := 0
  coverage_pct := 0
  uses_heuristics := heur
  uses_skips := false
  parse_status := some "error"
  error_message := some "Could not find RawTriangles sync padding"
  properties_end := some prop_end
  core_internal_version := Option.none
  core_section_count := Option.none
  core_skip_pos := Option.none
  raw_triangles_payload_size := Option.none
  physics_ref := Option.none
  auth_key := Option.none
  lod_version := Option.none
  lod_count := Option.none
  lods := []
  unknown_regions := []

/-- Error result for an out-of-bounds RawTriangles skip pointer
(lines 394-398). -/
def mkSkipError (data : List Nat) (prop_end : Nat) (heur : Bool)
    (internal_version sec_count : Int) (skip_pos : Nat) (parsed1 : Int)
    (relative_skip : Int) : ParseResult where
  bytes_total := data.length
  bytes_parsed := parsed1
  bytes_unknown := 0
  coverage_pct := 0
  uses_heuristics := heur
  uses_skips := false
  parse_status := some "error"
  error_message := some ("Invalid RawTriangles skip_pos: " ++
    toString skip_pos ++ " (relative " ++ toString relative_skip ++ ")")
  properties_end := some prop_end
  core_internal_version := some internal_version
  core_section_count := some sec_count
  core_skip_pos := some skip_pos
  raw_triangles_payload_size := Option.none
  physics_ref := Option.none
  auth_key := Option.none
  lod_version := Option.none
  lod_count := Option.none
  lods := []
  unknown_regions := []

/-- Fully parsed result of `parse_staticmesh` (lines 557-575): the trailing
unknown region, when present, is counted in `bytes_unknown` and AGAIN in
`bytes_parsed` ("We read it, just don't understand it"), and coverage is
bytes_parsed over bytes_total. -/
def mkFinal (data : List Nat) (status0 : Option String) (heur : Bool)
    (prop_end : Nat) (internal_version sec_count : Int) (skip_pos : Nat)
    (rawTri : Option Int) (physics_ref auth_key lod_version lod_count : Int)
    (lods : List LodData) (parsed unknown : Int)
    (regions : List UnknownRegion) : ParseResult where
  bytes_total := data.length
  bytes_parsed := parsed
  bytes_unknown := unknown
  coverage_pct := ((parsed : ℚ) / ((data.length : Int) : ℚ)) * 100
  uses_heuristics := heur
  uses_skips := false
  parse_status := status0
  error_message := Option.none
  properties_end := some prop_end
  core_internal_version := some internal_version
  core_section_count := some sec_count
  core_skip_pos := some skip_pos
  raw_triangles_payload_size := rawTri
  physics_ref := some physics_ref
  auth_key := some auth_key
  lod_version := some lod_version
  lod_count := some lod_count
  lods := lods
  unknown_regions := regions

/-- The RawTriangles padding search of `parse_staticmesh`
(lines 366-370): the 6-byte all-zero marker is looked for from
`search_start`, and -1 (not found) results when the search start already
lies beyond the buffer. -/
def find_padding (data : List Nat) (search_start : Int) : Int :=
  if search_start < (data.length : Int) then pyFindZeros6 data search_start
  else -1

/-- The Vanguard StaticMesh decoder, `parse_staticmesh` of
`src/scripts/lib/staticmesh_construct.py` (lines 247-575): property skip,
InternalVersion anchor search, section-size heuristic, RawTriangles padding
and skip pointer, post-skip header, LOD loop and coverage accounting.
`Except.error` is an exception escaping the call. -/
def parse_staticmesh (data : List Nat) (names : List String)
    (serial_offset : Int) : Except PyErr ParseResult :=
  match find_none_terminator data names with
  | .error e => .error e
  | .ok prop_end =>
    match scan1 data prop_end with
    | .error e => .error e
    | .ok s1 =>
      let status0 : Option String := if s1.1 then Option.none else some "error"
      match find_core_start data prop_end with
      | Option.none => .ok (mkAnchorError data prop_end s1.2)
      | some cs =>
        let core_start := cs.1
        let heur := s1.2 || cs.2
        match unpackI32 data ((core_start : Int) + 40) with
        | .error e => .error e
        | .ok ver_40 =>
          let v_off : Nat := if ver_40 ∈ v_anchors then 40 else 41
          match unpackI32 data ((core_start : Int) + (v_off : Int)) with
          | .error e => .error e
          | .ok internal_version =>
            match unpackI32 data ((core_start : Int) + (v_off : Int) + 4) with
            | .error e => .error e
            | .ok sec_count =>
              match section_size_loop data
                  ((core_start : Int) + (v_off : Int) + 8) sec_count
                  [14, 24, 16, 20, 28] with
              | .error e => .error e
              | .ok section_size =>
                let padding_pos : Int :=
                  find_padding data ((core_start : Int) + (v_off : Int) + 8 +
                    sec_count * (section_size : Int))
                if padding_pos = -1 ∨ (data.length : Int) < padding_pos + 10 then
                  .ok (mkPaddingError data prop_end heur)
                else
                  match unpackU32 data (padding_pos + 6) with
                  | .error e => .error e
                  | .ok skip_pos =>
                    let core_bytes : Int := padding_pos + 10 - core_start
                    let parsed1 : Int := core_start + core_bytes
                    let relative_skip : Int := (skip_pos : Int) - serial_offset
                    if skip_pos ≠ 0 ∧
                        (relative_skip < 0 ∨
                          relative_skip > (data.length : Int)) then
                      .ok (mkSkipError data prop_end heur internal_version
                        sec_count skip_pos parsed1 relative_skip)
                    else
                      let current_pos : Int :=
                        if skip_pos = 0 then core_start + core_bytes
                        else relative_skip
                      let raw_tri_size : Int := relative_skip - current_pos
                      let parsed2 : Int :=
                        if raw_tri_size > 0 then parsed1 + raw_tri_size
                        else parsed1
                      let rawTri : Option Int :=
                        if raw_tri_size > 0 then some raw_tri_size
                        else Option.none
                      let post := pySliceFrom data relative_skip
                      match stream_read_i32 post 0 with
                      | .error e => .error e
                      | .ok (physics_ref, p1) =>
                        match stream_read_i32 post p1 with
                        | .error e => .error e
                        | .ok (auth_key, p2) =>
                          match stream_read_i32 post p2 with
                          | .error e => .error e
                          | .ok (lod_version, p3) =>
                            match stream_read_i32 post p3 with
                            | .error e => .error e
                            | .ok (lod_count, p4) =>
                              let parsed3 : Int := parsed2 + p4
                              match parse_lods post lod_version
                                  lod_count.toNat p4 0 [] with
                              | .error e => .error e
                              | .ok lr =>
                                let posEnd := lr.1
                                let lods := lr.2.2
                                let parsed4 : Int := parsed3 + lr.2.1
                                let remaining_pos : Int :=
                                  relative_skip + posEnd
                                let remaining : Int :=
                                  (data.length : Int) - remaining_pos
                                if remaining > 0 then
                                  .ok (mkFinal data status0 heur prop_end
                                    internal_version sec_count skip_pos rawTri
                                    physics_ref auth_key lod_version lod_count
                                    lods (parsed4 + remaining) remaining
                                    [⟨remaining_pos, data.length, remaining,
                                      pySliceFrom data remaining_pos,
                                      "post_lod_data"⟩])
                                else
                                  .ok (mkFinal data status0 heur prop_end
                                    internal_version sec_count skip_pos rawTri
                                    physics_ref auth_key lod_version lod_count
                                    lods parsed4 0 [])

/-- Concrete 140-byte StaticMesh export body: empty property block, anchor
at the expected offset, a forward skip pointer (absolute 80 with
serial_offset 0) whose 8 payload bytes are silently skipped, one version-0
LOD with no vertices and three indices, and two trailing junk bytes. -/
def cin1 : List Nat :=
  [0] ++ List.replicate 40 1 ++
  [11, 0, 0, 0] ++ [0, 0, 0, 0] ++
  [0, 0, 0, 0] ++ [1] ++ [1, 1, 1] ++ [0, 0, 0, 0] ++ [1] ++
  [0, 0, 0, 0, 0, 0] ++ [80, 0, 0, 0] ++
  List.replicate 8 170 ++
  [7, 0, 0, 0] ++ [8, 0, 0, 0] ++ [0, 0, 0, 0] ++ [1, 0, 0, 0] ++
  [0, 0, 0, 0] ++ [0, 0, 0, 0] ++ [0, 0, 0, 0] ++
  [8, 0, 0, 0] ++ [0, 0, 0, 0] ++ [4, 0, 0, 0] ++ [0, 0, 0, 0] ++
  [4, 0, 0, 0] ++ [3, 0, 0, 0] ++
  [0xF4, 1, 0xF5, 1, 0xF6, 1] ++ [0xEE, 0xEE]

set_option maxRecDepth 40000 in
/-- C1 counterexample: a successfully parsed export (no error message) for
which bytes_parsed + bytes_unknown ≠ bytes_total: the two trailing unknown
bytes are counted in both bytes_parsed and bytes_unknown, and the 8
RawTriangles payload bytes are counted in neither. -/
theorem claim_C1_counterexample :
    Except.map (fun r =>
        (r.error_message, r.bytes_parsed, r.bytes_unknown, r.bytes_total))
      (parse_staticmesh cin1 [] 0) = .ok (Option.none, 132, 2, 140) ∧
    ¬ ((132 : Int) + 2 = 140) := ⟨rfl, by decide⟩

/-- C1 (amended): for every export parsed to completion (no error message),
coverage_pct equals 100 * bytes_parsed / bytes_total exactly as claimed;
but bytes_parsed + bytes_unknown = bytes_total does not hold in general,
because a trailing unknown region is added to bytes_parsed as well. -/
theorem claim_C1_coverage_formula (data : List Nat) (names : List String)
    (so : Int) (r : ParseResult)
    (h : parse_staticmesh data names so = .ok r)
    (hsucc : r.error_message = Option.none) :
    r.coverage_pct = 100 * (r.bytes_parsed : ℚ) / (r.bytes_total : ℚ) := by
  unfold parse_staticmesh at h
  cases h1 : find_none_terminator data names with
  | error e => rw [h1] at h; cases h
  | ok pe =>
  rw [h1] at h
  dsimp only at h
  cases h2 : scan1 data pe with
  | error e => rw [h2] at h; cases h
  | ok s1 =>
  rw [h2] at h
  dsimp only at h
  cases h3 : find_core_start data pe with
  | none =>
    rw [h3] at h
    cases h
    simp [mkAnchorError] at hsucc
  | some cs =>
  rw [h3] at h
  dsimp only at h
  cases h4 : unpackI32 data ((cs.1 : Int) + 40) with
  | error e => rw [h4] at h; cases h
  | ok ver40 =>
  rw [h4] at h
  dsimp only at h
  generalize (if ver40 ∈ v_anchors then (40 : Nat) else 41) = voff at h
  cases h5 : unpackI32 data ((cs.1 : Int) + (voff : Int)) with
  | error e => rw [h5] at h; cases h
  | ok iv =>
  rw [h5] at h
  dsimp only at h
  cases h6 : unpackI32 data ((cs.1 : Int) + (voff : Int) + 4) with
  | error e => rw [h6] at h; cases h
  | ok sc =>
  rw [h6] at h
  dsimp only at h
  cases h7 : section_size_loop data ((cs.1 : Int) + (voff : Int) + 8) sc
      [14, 24, 16, 20, 28] with
  | error e => rw [h7] at h; cases h
  | ok ss =>
  rw [h7] at h
  dsimp only at h
  generalize find_padding data
    ((cs.1 : Int) + (voff : Int) + 8 + sc * (ss : Int)) = pad at h
  split at h
  · cases h
    simp [mkPaddingError] at hsucc
  · cases h8 : unpackU32 data _ with
    | error e => rw [h8] at h; cases h
    | ok skip_pos =>
    rw [h8] at h
    dsimp only at h
    split at h
    · cases h
      simp [mkSkipError] at hsucc
    · cases h9 : stream_read_i32 (pySliceFrom data ((skip_pos : Int) - so)) 0 with
      | error e => rw [h9] at h; cases h
      | ok pr1 =>
      rw [h9] at h
      dsimp only at h
      cases h10 : stream_read_i32 (pySliceFrom data ((skip_pos : Int) - so))
          pr1.2 with
      | error e => rw [h10] at h; cases h
      | ok pr2 =>
      rw [h10] at h
      dsimp only at h
      cases h11 : stream_read_i32 (pySliceFrom data ((skip_pos : Int) - so))
          pr2.2 with
      | error e => rw [h11] at h; cases h
      | ok pr3 =>
      rw [h11] at h
      dsimp only at h
      cases h12 : stream_read_i32 (pySliceFrom data ((skip_pos : Int) - so))
          pr3.2 with
      | error e => rw [h12] at h; cases h
      | ok pr4 =>
      rw [h12] at h
      dsimp only at h
      cases h13 : parse_lods (pySliceFrom data ((skip_pos : Int) - so)) pr3.1
          pr4.1.toNat pr4.2 0 [] with
      | error e => rw [h13] at h; cases h
      | ok lr =>
      rw [h13] at h
      dsimp only at h
      split at h <;>
        (cases h; simp [mkFinal]; ring)

/-- The LOD record `parse_staticmesh` extracts from `cin1`. -/
def lodC1 : LodData :=
  ⟨0, Option.none, some 0, some 0, 0, [], [], 8, 4, 4, 3, [500, 501, 502]⟩

/-- The full result record of parsing `cin1`. -/
def rC1 : ParseResult :=
  mkFinal cin1 Option.none true 1 11 0 80 Option.none 7 8 0 1 [lodC1] 132 2
    [⟨138, 140, 2, [238, 238], "post_lod_data"⟩]

set_option maxRecDepth 40000 in
/-- Witness for C1: the coverage formula applied to the concrete successful
parse of `cin1`. -/
theorem claim_C1_witness :
    rC1.coverage_pct = 100 * (rC1.bytes_parsed : ℚ) / (rC1.bytes_total : ℚ) :=
  claim_C1_coverage_formula cin1 [] 0 rC1 rfl rfl

/-- Variant of `cin1` whose LOD declares 2,000,000 indices, above the
sanity ceiling. -/
def cin7 : List Nat :=
  [0] ++ List.replicate 40 1 ++
  [11, 0, 0, 0] ++ [0, 0, 0, 0] ++
  [0, 0, 0, 0] ++ [1] ++ [1, 1, 1] ++ [0, 0, 0, 0] ++ [1] ++
  [0, 0, 0, 0, 0, 0] ++ [80, 0, 0, 0] ++
  List.replicate 8 170 ++
  [7, 0, 0, 0] ++ [8, 0, 0, 0] ++ [0, 0, 0, 0] ++ [1, 0, 0, 0] ++
  [0, 0, 0, 0] ++ [0, 0, 0, 0] ++ [0, 0, 0, 0] ++
  [8, 0, 0, 0] ++ [0, 0, 0, 0] ++ [4, 0, 0, 0] ++ [0, 0, 0, 0] ++
  [4, 0, 0, 0] ++ [0x80, 0x84, 0x1E, 0] ++
  [0xF4, 1, 0xF5, 1, 0xF6, 1] ++ [0xEE, 0xEE]

/-- A buffer with a property terminator but no InternalVersion anchor
anywhere. -/
def cin7b : List Nat := [0] ++ List.replicate 50 1

/-- Variant of `cin1` whose skip pointer (61440) lies far outside the
buffer. -/
def cin7c : List Nat :=
  [0] ++ List.replicate 40 1 ++
  [11, 0, 0, 0] ++ [0, 0, 0, 0] ++
  [0, 0, 0, 0] ++ [1] ++ [1, 1, 1] ++ [0, 0, 0, 0] ++ [1] ++
  [0, 0, 0, 0, 0, 0] ++ [0, 0xF0, 0, 0] ++
  List.replicate 8 170 ++
  [7, 0, 0, 0] ++ [8, 0, 0, 0] ++ [0, 0, 0, 0] ++ [1, 0, 0, 0] ++
  [0, 0, 0, 0] ++ [0, 0, 0, 0] ++ [0, 0, 0, 0] ++
  [8, 0, 0, 0] ++ [0, 0, 0, 0] ++ [4, 0, 0, 0] ++ [0, 0, 0, 0] ++
  [4, 0, 0, 0] ++ [3, 0, 0, 0] ++
  [0xF4, 1, 0xF5, 1, 0xF6, 1] ++ [0xEE, 0xEE]

/-- Post-skip stream for a version-1 LOD with an extended header whose
probed vertex count (600,000) is absurd and gets clamped to zero. -/
def post7d : List Nat :=
  [1, 0, 0, 0, 5, 0, 0, 0, 9, 0, 0, 0] ++ List.replicate 20 7 ++
  [0xC0, 0x27, 9, 0] ++
  [1, 0, 0, 0, 0, 0, 0, 0, 2, 0, 0, 0, 0, 0, 0, 0, 3, 0, 0, 0, 0, 0, 0, 0]

set_option maxRecDepth 40000 in
/-- C7 counterexample: on an input whose LOD index count exceeds the sanity
ceiling, `parse_staticmesh` raises a ValueError out of the call instead of
returning a result with parse_status 'error'. -/
theorem claim_C7_counterexample :
    parse_staticmesh cin7 [] 0 =
      .error (.valueError "Absurd LOD index count: 2000000") := rfl

set_option maxRecDepth 40000 in
/-- C7 (amended): anchor-not-found and an out-of-bounds skip pointer are
reported as parse_status 'error' with a diagnostic message and no
exception; but an absurd LOD index count (> 1,000,000) raises ValueError
out of the call, and an absurd vertex count (> 500,000) in a version-1
extended LOD header is clamped to zero without any error. -/
theorem claim_C7_error_reporting :
    (∀ (data : List Nat) (names : List String) (so : Int) (pe : Nat)
        (s1 : Bool × Bool),
      find_none_terminator data names = .ok pe →
      scan1 data pe = .ok s1 →
      find_core_start data pe = Option.none →
      parse_staticmesh data names so = .ok (mkAnchorError data pe s1.2) ∧
      (mkAnchorError data pe s1.2).parse_status = some "error" ∧
      (mkAnchorError data pe s1.2).error_message =
        some "Could not find StaticMesh core anchor (InternalVersion)") ∧
    Except.map (fun r => (r.parse_status, r.error_message))
      (parse_staticmesh cin7c [] 0) =
      .ok (some "error",
        some "Invalid RawTriangles skip_pos: 61440 (relative 61440)") ∧
    parse_staticmesh cin7 [] 0 =
      .error (.valueError "Absurd LOD index count: 2000000") ∧
    Except.map (fun lr => lr.2.2.map (fun l => l.vertex_count))
      (parse_lods post7d 1 1 0 0 []) = .ok [0] := by
  refine ⟨?_, rfl, rfl, rfl⟩
  intro data names so pe s1 h1 h2 h3
  refine ⟨?_, rfl, rfl⟩
  unfold parse_staticmesh
  rw [h1]
  dsimp only
  rw [h2]
  dsimp only
  rw [h3]

set_option maxRecDepth 40000 in
/-- Witness for C7: the anchor-miss conjunct applied to the concrete
anchor-free buffer `cin7b`. -/
theorem claim_C7_witness :
    parse_staticmesh cin7b [] 0 = .ok (mkAnchorError cin7b 1 false) ∧
    (mkAnchorError cin7b 1 false).parse_status = some "error" := by
  have h := claim_C7_error_reporting.1 cin7b [] 0 1 (false, false) rfl rfl rfl
  exact ⟨h.1, h.2.1⟩

/-- Variant of `cin1` with skip pointer 0 and distinct markers: the 32-bit
value right after the padding-plus-pointer (offset 72) is 111, while the
32-bit value 60 bytes from the end of the buffer (offset 80) is 222. -/
def cin8 : List Nat :=
  [0] ++ List.replicate 40 1 ++
  [11, 0, 0, 0] ++ [0, 0, 0, 0] ++
  [0, 0, 0, 0] ++ [1] ++ [1, 1, 1] ++ [0, 0, 0, 0] ++ [1] ++
  [0, 0, 0, 0, 0, 0] ++ [0, 0, 0, 0] ++
  [111, 0, 0, 0] ++ List.replicate 4 170 ++
  [222, 0, 0, 0] ++ [8, 0, 0, 0] ++ [0, 0, 0, 0] ++ [1, 0, 0, 0] ++
  [0, 0, 0, 0] ++ [0, 0, 0, 0] ++ [0, 0, 0, 0] ++
  [8, 0, 0, 0] ++ [0, 0, 0, 0] ++ [4, 0, 0, 0] ++ [0, 0, 0, 0] ++
  [4, 0, 0, 0] ++ [3, 0, 0, 0] ++
  [0xF4, 1, 0xF5, 1, 0xF6, 1] ++ [0xEE, 0xEE]

set_option maxRecDepth 40000 in
/-- C8: with a zero skip pointer and serial_offset 60, `parse_staticmesh`
does not resume at the position immediately following the padding marker
and pointer (offset 72, whose header value is 111): Step 4 slices
`data[skip_pos - serial_offset:]` — here `data[-60:]`, which Python wraps
to the last 60 bytes — so the post-skip header is read at offset 80 and
physics_ref comes out as 222.  The padding marker sits at offset 62, so the
claimed resume point is 62 + 10 = 72. -/
theorem claim_C8_zero_skip_pointer_bug :
    Except.map (fun r => (r.physics_ref, r.error_message))
      (parse_staticmesh cin8 [] 60) = .ok (some 222, Option.none) ∧
    i32at cin8 72 = 111 ∧
    find_padding cin8 49 = 62 ∧
    pySliceFrom cin8 ((0 : Int) - 60) = cin8.drop 80 := by
  refine ⟨rfl, by decide, rfl, rfl⟩

/-- Modelled from the spec: the claimed acceptance test for an index-buffer
candidate — element count at least 3 and at least 95 percent of the
elements valid indices into the LOD's vertex array.  (The claim attributes
this test to `parse_staticmesh`; the source's only such test lives in
`FVanguardLODModel.read` of `src/scripts/lib/vanguard_mesh_lib.py`, which
additionally requires strictly fewer than max(1, 5 percent) invalid
entries.) -/
def spec_index_accept (indices : List Nat) (vertex_count : Nat) : Prop :=
  3 ≤ indices.length ∧
  95 * indices.length ≤
    100 * indices.countP (fun w => decide (w < vertex_count))

instance (indices : List Nat) (vertex_count : Nat) :
    Decidable (spec_index_accept indices vertex_count) := by
  unfold spec_index_accept
  infer_instance

set_option maxRecDepth 40000 in
/-- C9 counterexample: `parse_staticmesh` returns an index buffer that is
not chosen by any validity heuristic: on `cin1` the returned LOD has an
empty vertex array yet indices [500, 501, 502], which fail the claimed
at-least-95-percent-valid acceptance test outright. -/
theorem claim_C9_counterexample :
    Except.map (fun r => r.lods.map
        (fun l => (l.vertices.length, l.vertex_count, l.indices)))
      (parse_staticmesh cin1 [] 0) = .ok [(0, 0, [500, 501, 502])] ∧
    ¬ spec_index_accept [500, 501, 502] 0 := ⟨rfl, by decide⟩

set_option maxRecDepth 40000 in
/-- C9 (amended): `parse_staticmesh` takes each LOD's index buffer from the
fixed slot after the 24-byte post-vertex header — the 32-bit count read
there followed by count 16-bit little-endian values — guarded only by the
absurd-count ceiling and a truncation check, with no validity test against
the vertex array; on `cin1` this yields exactly the fixed-slot bytes even
though none of the indices is valid. -/
theorem claim_C9_fixed_slot :
    (∀ (post : List Nat) (pos ic : Nat) (ind : List Nat) (p2 : Nat),
      read_fixed_index_buffer post pos = .ok (ic, ind, p2) →
      ic = le32 post pos ∧
      ind = u16_pairs ((post.drop (pos + 4)).take (ic * 2))) ∧
    read_fixed_index_buffer (cin1.drop 80) 48 =
      .ok (3, [500, 501, 502], 58) ∧
    Except.map (fun r => r.lods.map (fun l => l.indices))
      (parse_staticmesh cin1 [] 0) = .ok [[500, 501, 502]] := by
  refine ⟨?_, rfl, rfl⟩
  intro post pos ic ind p2 h
  unfold read_fixed_index_buffer at h
  cases hs : stream_read_u32 post pos with
  | error e => rw [hs] at h; cases h
  | ok pr =>
    rw [hs] at h
    dsimp only at h
    unfold stream_read_u32 at hs
    split at hs
    · cases hs
      split at h
      · cases h
      · split at h
        · cases h
        · cases h
          exact ⟨rfl, rfl⟩
    · cases hs

set_option maxRecDepth 40000 in
/-- Witness for C9: the fixed-slot characterisation applied to the
concrete post-skip stream of `cin1`. -/
theorem claim_C9_witness :
    (3 : Nat) = le32 (cin1.drop 80) 48 ∧
    ([500, 501, 502] : List Nat) =
      u16_pairs (((cin1.drop 80).drop (48 + 4)).take (3 * 2)) :=
  claim_C9_fixed_slot.1 (cin1.drop 80) 48 3 [500, 501, 502] 58 rfl
